import Mathlib

/-!
Verification of the warm call-transfer orchestrator in
`src/agents/call_forwarding.py` (class `SessionManager` and the agents
around it).

Shallow embedding. The orchestrator's mutable attributes become the
record `SMState`; its immutable configuration (env vars and constructor
arguments) becomes `Config`. Every call to an external collaborator
(the media session handle, the background audio player, the telephony
dial-out gateway, the participant migration service) is one value of
`ExtCall`; whether a given external call raises an exception is decided
by a deterministic environment oracle `Env : ExtCall -> Bool` (`true`
means the call raises). Each method of `SessionManager` becomes a Lean
function from the state to a `StepRes`: whether an unhandled exception
propagates out of the method, the state after the method (Python
mutates in place, so state changes made before an exception persist),
and the ordered trace of external calls the method attempted.
Python `try/except` blocks are mirrored exactly: a call whose raise the
source catches contributes its trace entry and then execution continues
on the handler path; a call outside any `try` propagates.
-/

/-- Values of the `CustomerStatus` literal type (line 57 of the source). -/
inductive CustomerStatus where
  | active
  | escalated
  | passive
deriving DecidableEq, Repr

/-- Values of the `SupervisorStatus` literal type (line 56 of the source). -/
inductive SupervisorStatus where
  | inactive
  | summarizing
  | merged
  | failed
deriving DecidableEq, Repr

/-- One attempted call to an external collaborator, with its arguments.
Hold-playback handles are numbered by a counter so that distinct
`background_audio.play` results are distinct values. -/
inductive ExtCall where
  | sayCustomer (msg : String)
  | setInputAudio (enabled : Bool)
  | setOutputAudio (enabled : Bool)
  | playHold
  | stopHandle (h : Nat)
  | connectRoom (room : String)
  | createSupervisorSession
  | startSupervisorSession
  | createSipParticipant (trunk : String) (sipCallTo : String) (room : String)
      (identity : String) (waitUntilAnswered : Bool)
  | moveParticipant (room : String) (identity : String) (destinationRoom : String)
  | closeCustomerSession
  | closeSupervisorSession
deriving DecidableEq, Repr

/-- Deterministic environment oracle: `env c = true` means the external
call `c` raises an exception when attempted. -/
abbrev Env := ExtCall → Bool

/-- The mutable attributes of `SessionManager` (lines 80-93), plus the
fresh-handle counter used to number hold-playback handles and a flag
recording that the customer agent session was closed. -/
structure SMState where
  customerStatus : CustomerStatus
  supervisorStatus : SupervisorStatus
  holdHandle : Option Nat
  nextHandle : Nat
  customerInputAudio : Bool
  customerOutputAudio : Bool
  supervisorRoomExists : Bool
  supervisorRoomName : Option String
  supervisorSession : Bool
  customerSessionClosed : Bool
deriving DecidableEq, Repr

/-- Immutable configuration: the env vars `LIVEKIT_SIP_OUTBOUND_TRUNK`
and `LIVEKIT_SUPERVISOR_PHONE_NUMBER` (optional strings, lines 49-50)
and the caller room name. -/
structure Config where
  sip_trunk_id : Option String
  supervisor_contact : Option String
  customer_room_name : String
deriving DecidableEq, Repr

/-- Result of running one `SessionManager` method: whether an exception
propagates out of it, the state it leaves behind, and the external calls
it attempted in order. -/
structure StepRes where
  raised : Bool
  state : SMState
  trace : List ExtCall
deriving DecidableEq, Repr

/-- The fixed identity used for the SIP participant created for the
supervisor (`_SUPERVISOR_IDENTITY`, line 53). -/
def SUPERVISOR_IDENTITY : String := "supervisor-sip"

/-- Notice spoken when transfer is unavailable (line 139). -/
def transferUnavailableMsg : String := "Sorry, transfer is unavailable right now."

/-- Hold announcement spoken to the caller (line 145). -/
def pleaseHoldMsg : String := "Please hold while I connect you to a human agent."

/-- Apology spoken by `set_supervisor_failed` (line 215). -/
def transferFailedMsg : String :=
  "Sorry, I couldn't connect you to a supervisor. How else can I help?"

/-- Farewell spoken during a successful merge (line 251). -/
def mergeFarewellMsg : String :=
  "You are now connected to a human supervisor. I will leave the line now. Goodbye."

/-- Python truthiness test used on the optional trunk/contact strings:
`not x` is true when `x` is `None` or the empty string. -/
def falsy : Option String → Bool
  | none => true
  | some v => v.isEmpty

/-- Python truthiness of `room.name` for an optional room name: false
when there is no name yet or the name is empty. -/
def roomNameTruthy : Option String → Bool
  | none => false
  | some n => !n.isEmpty

/-- `SessionManager.start_hold` (lines 99-110): disables inbound then
outbound caller audio, then starts hold playback and stores the new
handle. None of the three calls is inside a `try`, so the first one
that raises propagates, leaving earlier mutations in place. The
previous hold handle, if any, is simply overwritten. -/
def start_hold (env : Env) (s : SMState) : StepRes :=
  if env (ExtCall.setInputAudio false) then
    { raised := true, state := s, trace := [ExtCall.setInputAudio false] }
  else
    let s1 := { s with customerInputAudio := false }
    if env (ExtCall.setOutputAudio false) then
      { raised := true, state := s1,
        trace := [ExtCall.setInputAudio false, ExtCall.setOutputAudio false] }
    else
      let s2 := { s1 with customerOutputAudio := false }
      if env ExtCall.playHold then
        { raised := true, state := s2,
          trace := [ExtCall.setInputAudio false, ExtCall.setOutputAudio false,
                    ExtCall.playHold] }
      else
        { raised := false,
          state := { s2 with holdHandle := some s2.nextHandle,
                             nextHandle := s2.nextHandle + 1 },
          trace := [ExtCall.setInputAudio false, ExtCall.setOutputAudio false,
                    ExtCall.playHold] }

/-- `SessionManager.stop_hold` (lines 112-126): if a hold handle is set,
attempts `handle.stop()` (a raise is caught and logged) and clears the
handle; then attempts to re-enable both audio directions inside one
`try` whose raise is caught and logged. The method never lets an
exception propagate. -/
def stop_hold (env : Env) (s : SMState) : StepRes :=
  let stopPart : SMState × List ExtCall :=
    match s.holdHandle with
    | none => (s, [])
    | some h => ({ s with holdHandle := none }, [ExtCall.stopHandle h])
  let s1 := stopPart.1
  let t1 := stopPart.2
  if env (ExtCall.setInputAudio true) then
    { raised := false, state := s1, trace := t1 ++ [ExtCall.setInputAudio true] }
  else
    let s2 := { s1 with customerInputAudio := true }
    if env (ExtCall.setOutputAudio true) then
      { raised := false, state := s2,
        trace := t1 ++ [ExtCall.setInputAudio true, ExtCall.setOutputAudio true] }
    else
      { raised := false, state := { s2 with customerOutputAudio := true },
        trace := t1 ++ [ExtCall.setInputAudio true, ExtCall.setOutputAudio true] }

/-- `SessionManager.set_supervisor_failed` (lines 209-224): sets
`supervisor_status = "failed"`, stops hold, speaks an apology (raise
caught), and closes the supervisor agent session if one exists (raise
caught; the reference is cleared either way). Never raises and never
touches `customer_status`. -/
def set_supervisor_failed (env : Env) (s : SMState) : StepRes :=
  let r1 := stop_hold env { s with supervisorStatus := SupervisorStatus.failed }
  let t2 := r1.trace ++ [ExtCall.sayCustomer transferFailedMsg]
  if r1.state.supervisorSession then
    { raised := false,
      state := { r1.state with supervisorSession := false },
      trace := t2 ++ [ExtCall.closeSupervisorSession] }
  else
    { raised := false, state := r1.state, trace := t2 }

/-- The failure handler of `start_transfer` (lines 204-207): resets
`customer_status = "active"` and awaits `set_supervisor_failed`; the
exception is caught, so the method returns normally. -/
def transfer_failure (env : Env) (s : SMState) (t : List ExtCall) : StepRes :=
  let r := set_supervisor_failed env { s with customerStatus := CustomerStatus.active }
  { raised := false, state := r.state, trace := t ++ r.trace }

/-- The `try` block of `start_transfer` (lines 147-203), entered with
the state after hold and announcement and the trace so far: creates
the consult room object, connects it (the room is named
`<caller room>-consult` once connected), constructs the supervisor
`AgentSession`, starts it, and dials the supervisor via SIP with the
fixed identity and `wait_until_answered`; on success sets
`supervisor_status = "summarizing"`. Any raise goes to the handler
`transfer_failure` (lines 204-207). -/
def transfer_try (cfg : Config) (env : Env) (s : SMState)
    (t : List ExtCall) : StepRes :=
  let consultName := cfg.customer_room_name ++ "-consult"
  let s3 := { s with supervisorRoomExists := true, supervisorRoomName := none }
  let t3 := t ++ [ExtCall.connectRoom consultName]
  if env (ExtCall.connectRoom consultName) then transfer_failure env s3 t3
  else
    let s4 := { s3 with supervisorRoomName := some consultName }
    let t4 := t3 ++ [ExtCall.createSupervisorSession]
    if env ExtCall.createSupervisorSession then transfer_failure env s4 t4
    else
      let s5 := { s4 with supervisorSession := true }
      let t5 := t4 ++ [ExtCall.startSupervisorSession]
      if env ExtCall.startSupervisorSession then transfer_failure env s5 t5
      else
        let dial := ExtCall.createSipParticipant
          (cfg.sip_trunk_id.getD "") (cfg.supervisor_contact.getD "")
          consultName SUPERVISOR_IDENTITY true
        let t6 := t5 ++ [dial]
        if env dial then transfer_failure env s5 t6
        else
          { raised := false,
            state := { s5 with
                       supervisorStatus := SupervisorStatus.summarizing },
            trace := t6 }

/-- `SessionManager.start_transfer` (lines 128-207). Early return when
`customer_status != "active"`. When trunk or contact is falsy, speaks
the unavailable notice (not inside a `try`: a raise there propagates)
and returns. Otherwise sets `customer_status = "escalated"`, runs
`start_hold` and the hold announcement (both outside the `try`, so
their raises propagate), then runs the `try` block `transfer_try`. -/
def start_transfer (cfg : Config) (env : Env) (s : SMState) : StepRes :=
  if s.customerStatus ≠ CustomerStatus.active then
    { raised := false, state := s, trace := [] }
  else if falsy cfg.sip_trunk_id || falsy cfg.supervisor_contact then
    { raised := env (ExtCall.sayCustomer transferUnavailableMsg), state := s,
      trace := [ExtCall.sayCustomer transferUnavailableMsg] }
  else
    let r1 := start_hold env { s with customerStatus := CustomerStatus.escalated }
    if r1.raised then
      { raised := true, state := r1.state, trace := r1.trace }
    else
      let t1 := r1.trace ++ [ExtCall.sayCustomer pleaseHoldMsg]
      if env (ExtCall.sayCustomer pleaseHoldMsg) then
        { raised := true, state := r1.state, trace := t1 }
      else
        transfer_try cfg env r1.state t1

/-- The failure handler of `merge_calls` (lines 265-267): awaits
`set_supervisor_failed`; the exception is caught, so the method returns
normally. -/
def merge_failure (env : Env) (s : SMState) (t : List ExtCall) : StepRes :=
  let r := set_supervisor_failed env s
  { raised := false, state := r.state, trace := t ++ r.trace }

/-- The `try` block of `merge_calls` (lines 237-264), entered after the
two precondition checks: moves the supervisor SIP participant from the
consult room into the customer room, stops hold, speaks a farewell,
closes the customer agent session, closes the supervisor agent session
if present (that close is in its own inner `try`, so its raise is
swallowed and the reference cleared either way), and sets
`supervisor_status = "merged"`. Any raise inside the outer `try` goes
to the handler `merge_failure` (lines 265-267). -/
def merge_try (cfg : Config) (env : Env) (s : SMState) : StepRes :=
  let mv := ExtCall.moveParticipant (s.supervisorRoomName.getD "")
    SUPERVISOR_IDENTITY cfg.customer_room_name
  if env mv then merge_failure env s [mv]
  else
    let r1 := stop_hold env s
    let t2 := mv :: r1.trace ++ [ExtCall.sayCustomer mergeFarewellMsg]
    if env (ExtCall.sayCustomer mergeFarewellMsg) then
      merge_failure env r1.state t2
    else
      let t3 := t2 ++ [ExtCall.closeCustomerSession]
      if env ExtCall.closeCustomerSession then merge_failure env r1.state t3
      else
        let s2 := { r1.state with customerSessionClosed := true }
        if s2.supervisorSession then
          { raised := false,
            state := { s2 with supervisorSession := false,
                               supervisorStatus := SupervisorStatus.merged },
            trace := t3 ++ [ExtCall.closeSupervisorSession] }
        else
          { raised := false,
            state := { s2 with supervisorStatus := SupervisorStatus.merged },
            trace := t3 }

/-- `SessionManager.merge_calls` (lines 226-267). Early return (no call
to `set_supervisor_failed`) when `supervisor_status != "summarizing"`.
When either room or room name is missing/empty, awaits
`set_supervisor_failed` and returns. Otherwise runs the `try` block
`merge_try`. -/
def merge_calls (cfg : Config) (env : Env) (s : SMState) : StepRes :=
  if s.supervisorStatus ≠ SupervisorStatus.summarizing then
    { raised := false, state := s, trace := [] }
  else if !(s.supervisorRoomExists && roomNameTruthy s.supervisorRoomName
            && !cfg.customer_room_name.isEmpty) then
    let r := set_supervisor_failed env s
    { raised := false, state := r.state, trace := r.trace }
  else
    merge_try cfg env s

/-- `SupervisorAgent.voicemail_detected` (lines 377-384): when a
session manager is attached, awaits `set_supervisor_failed`; otherwise
does nothing. -/
def voicemail_detected (hasManager : Bool) (env : Env) (s : SMState) : StepRes :=
  if hasManager then set_supervisor_failed env s
  else { raised := false, state := s, trace := [] }

/-- The consult-room disconnect handler registered at line 169:
`lambda reason: asyncio.create_task(self.set_supervisor_failed())`. -/
def consult_disconnected (env : Env) (s : SMState) : StepRes :=
  set_supervisor_failed env s

/-- Role of one item of the LLM chat context handed to
`SupervisorAgent.__init__` as `prev_ctx`. -/
inductive ChatRole where
  | user
  | assistant
  | system
deriving DecidableEq, Repr

/-- One item of the chat context: a message with a role and its text
content, or a function-call event. -/
inductive ChatItem where
  | message (role : ChatRole) (text : String)
  | functionCall (name : String)
deriving DecidableEq, Repr

/-- Whether `prev_ctx.copy (exclude_empty_message := True,
exclude_instructions := True, exclude_function_call := True)` keeps an
item. This models the external chat-context interface the source calls
at lines 335-337: it drops empty messages, system/instruction messages
and function-call events, keeping all other items in order. -/
def copyKeeps : ChatItem → Bool
  | ChatItem.message role text => !(role = ChatRole.system) && !text.isEmpty
  | ChatItem.functionCall _ => false

/-- The filtered copy of the chat context taken by
`SupervisorAgent.__init__` (lines 335-337). -/
def contextCopy (items : List ChatItem) : List ChatItem :=
  items.filter copyKeeps

/-- One line of the briefing (lines 339-342): user messages render as
customer lines, every other kept item as an assistant line. -/
def briefingLine : ChatItem → String
  | ChatItem.message ChatRole.user text => "Customer: " ++ text ++ "\n"
  | ChatItem.message _ text => "Assistant: " ++ text ++ "\n"
  | ChatItem.functionCall _ => "Assistant: \n"

/-- `prev_convo` as accumulated by the loop at lines 338-342 of
`SupervisorAgent.__init__`: starting from the empty string, append one
line per item of the filtered copy, in order. -/
def prev_convo (items : List ChatItem) : String :=
  (contextCopy items).foldl (fun acc it => acc ++ briefingLine it) ""

/-- The predicate the specification describes: a caller or assistant
turn with non-empty text. -/
def specKeeps : ChatItem → Bool
  | ChatItem.message ChatRole.user text => !text.isEmpty
  | ChatItem.message ChatRole.assistant text => !text.isEmpty
  | _ => false

/-- Helper: the customer status a step leaves behind. -/
def statusAfter (r : StepRes) : CustomerStatus := r.state.customerStatus

/-- Count, in a trace, of the apology line that `set_supervisor_failed`
speaks exactly once per invocation; no other code path speaks it, so
this counts invocations of `set_supervisor_failed`. -/
def failSayCount (t : List ExtCall) : Nat :=
  t.count (ExtCall.sayCustomer transferFailedMsg)

/-- Whether an external call is a participant migration. -/
def isMoveCall : ExtCall → Bool
  | ExtCall.moveParticipant _ _ _ => true
  | _ => false

/-- Count of migration attempts in a trace. -/
def moveCount (t : List ExtCall) : Nat :=
  t.countP isMoveCall

/-- Proof helper: the caller input-audio flag after an attempted
re-enable whose raise is swallowed. -/
def audioInAfter (env : Env) (b : Bool) : Bool :=
  if env (ExtCall.setInputAudio true) then b else true

/-- Proof helper: the caller output-audio flag after the attempted
re-enables whose raises are swallowed (the output re-enable is only
reached when the input one did not raise). -/
def audioOutAfter (env : Env) (b : Bool) : Bool :=
  if env (ExtCall.setInputAudio true) then b
  else if env (ExtCall.setOutputAudio true) then b else true

/-- Proof helper: the trace `stop_hold` produces. -/
def stopHoldTrace (env : Env) (h : Option Nat) : List ExtCall :=
  (match h with
   | none => []
   | some k => [ExtCall.stopHandle k]) ++
  (if env (ExtCall.setInputAudio true) then [ExtCall.setInputAudio true]
   else [ExtCall.setInputAudio true, ExtCall.setOutputAudio true])

theorem stop_hold_closed (env : Env) (s : SMState) :
    stop_hold env s =
      { raised := false,
        state := { s with holdHandle := none,
                          customerInputAudio := audioInAfter env s.customerInputAudio,
                          customerOutputAudio := audioOutAfter env s.customerOutputAudio },
        trace := stopHoldTrace env s.holdHandle } := by
  obtain ⟨cs, ss, hh, nh, cia, coa, sre, srn, sse, csc⟩ := s
  unfold stop_hold stopHoldTrace audioInAfter audioOutAfter
  cases hh <;>
    by_cases h1 : env (ExtCall.setInputAudio true) <;>
      by_cases h2 : env (ExtCall.setOutputAudio true) <;>
        simp [h1, h2]

theorem set_supervisor_failed_closed (env : Env) (s : SMState) :
    set_supervisor_failed env s =
      { raised := false,
        state := { s with supervisorStatus := SupervisorStatus.failed,
                          holdHandle := none,
                          customerInputAudio := audioInAfter env s.customerInputAudio,
                          customerOutputAudio := audioOutAfter env s.customerOutputAudio,
                          supervisorSession := false },
        trace := stopHoldTrace env s.holdHandle
                 ++ [ExtCall.sayCustomer transferFailedMsg]
                 ++ (if s.supervisorSession then [ExtCall.closeSupervisorSession]
                     else []) } := by
  unfold set_supervisor_failed
  rw [stop_hold_closed]
  by_cases h : s.supervisorSession <;> simp [h]

/-- Whether an external call is a hold-playback stop. -/
def isStopCall : ExtCall → Bool
  | ExtCall.stopHandle _ => true
  | _ => false

/-- Concrete environment in which no external call raises. -/
def okEnv : Env := fun _ => false

/-- Concrete configuration with trunk and contact set. -/
def cexCfg : Config :=
  { sip_trunk_id := some "T1", supervisor_contact := some "+1000",
    customer_room_name := "room-1" }

/-- Concrete fresh state: caller active, no transfer in progress. -/
def cexState : SMState :=
  { customerStatus := CustomerStatus.active,
    supervisorStatus := SupervisorStatus.inactive,
    holdHandle := none, nextHandle := 0,
    customerInputAudio := true, customerOutputAudio := true,
    supervisorRoomExists := false, supervisorRoomName := none,
    supervisorSession := false, customerSessionClosed := false }

/-- C1 counterexample: with `supervisor_status = "inactive"` (hence not
`"summarizing"`), `merge_calls` does not invoke `set_supervisor_failed`
exactly once — it invokes it zero times (the early return at lines
228-230 has no `set_supervisor_failed` call), refuting the claim as
stated. -/
theorem C1_counterexample :
    cexState.supervisorStatus ≠ SupervisorStatus.summarizing ∧
    ¬ failSayCount (merge_calls cexCfg okEnv cexState).trace = 1 := by decide

/-- C1 (amended): for every call of `merge_calls` in a state where
`supervisor_status != "summarizing"`, the method returns immediately
with the state unchanged and an empty trace: `set_supervisor_failed` is
never invoked (zero times, not once) and migration is never attempted. -/
theorem C1_merge_not_summarizing_early_return (cfg : Config) (env : Env)
    (s : SMState) (h : s.supervisorStatus ≠ SupervisorStatus.summarizing) :
    merge_calls cfg env s = { raised := false, state := s, trace := [] } ∧
    failSayCount (merge_calls cfg env s).trace = 0 ∧
    moveCount (merge_calls cfg env s).trace = 0 := by
  unfold merge_calls
  simp [h, failSayCount, moveCount]

/-- C1 witness: the amended theorem applied at the concrete inactive
state. -/
theorem C1_witness :
    merge_calls cexCfg okEnv cexState =
      { raised := false, state := cexState, trace := [] } ∧
    failSayCount (merge_calls cexCfg okEnv cexState).trace = 0 ∧
    moveCount (merge_calls cexCfg okEnv cexState).trace = 0 :=
  C1_merge_not_summarizing_early_return cexCfg okEnv cexState (by decide)

/-- Helper: the state `set_supervisor_failed` leaves behind, when the
audio re-enable calls succeed, has both caller audio flags true, the
supervisor status `failed`, and the customer status untouched. -/
theorem set_supervisor_failed_safe (env : Env) (s : SMState)
    (hin : env (ExtCall.setInputAudio true) = false)
    (hout : env (ExtCall.setOutputAudio true) = false) :
    (set_supervisor_failed env s).state.customerInputAudio = true ∧
    (set_supervisor_failed env s).state.customerOutputAudio = true ∧
    (set_supervisor_failed env s).state.customerStatus = s.customerStatus ∧
    (set_supervisor_failed env s).state.supervisorStatus = SupervisorStatus.failed := by
  rw [set_supervisor_failed_closed]
  simp [audioInAfter, audioOutAfter, hin, hout]

/-- Helper: `start_hold` only touches the audio flags and the hold
handle; every other field of the state is preserved, whether or not a
call inside it raises. -/
theorem start_hold_preserves (env : Env) (s : SMState) :
    (start_hold env s).state.customerStatus = s.customerStatus ∧
    (start_hold env s).state.supervisorStatus = s.supervisorStatus ∧
    (start_hold env s).state.supervisorRoomExists = s.supervisorRoomExists ∧
    (start_hold env s).state.supervisorRoomName = s.supervisorRoomName ∧
    (start_hold env s).state.supervisorSession = s.supervisorSession ∧
    (start_hold env s).state.customerSessionClosed = s.customerSessionClosed := by
  unfold start_hold
  split_ifs <;> simp

/-- Helper: whenever the `try` block of `start_transfer` ends with
supervisor status `failed`, it went through the exception handler,
which resets customer status to `active`; with succeeding audio
re-enables both caller audio flags end true. -/
theorem transfer_try_failed_safe (cfg : Config) (env : Env) (s : SMState)
    (t : List ExtCall)
    (hin : env (ExtCall.setInputAudio true) = false)
    (hout : env (ExtCall.setOutputAudio true) = false) :
    (transfer_try cfg env s t).state.supervisorStatus = SupervisorStatus.failed →
      (transfer_try cfg env s t).state.customerStatus = CustomerStatus.active ∧
      (transfer_try cfg env s t).state.customerInputAudio = true ∧
      (transfer_try cfg env s t).state.customerOutputAudio = true := by
  unfold transfer_try transfer_failure
  simp only [set_supervisor_failed_closed]
  split_ifs <;> simp_all [audioInAfter, audioOutAfter]

/-- Helper: whenever `start_transfer` ends with supervisor status
`failed` (and did not start there), it went through its exception
handler, which resets customer status to `active`; with succeeding
audio re-enables both caller audio flags end true. -/
theorem start_transfer_failed_safe (cfg : Config) (env : Env) (s : SMState)
    (hin : env (ExtCall.setInputAudio true) = false)
    (hout : env (ExtCall.setOutputAudio true) = false)
    (hs : s.supervisorStatus ≠ SupervisorStatus.failed) :
    (start_transfer cfg env s).state.supervisorStatus = SupervisorStatus.failed →
      (start_transfer cfg env s).state.customerStatus = CustomerStatus.active ∧
      (start_transfer cfg env s).state.customerInputAudio = true ∧
      (start_transfer cfg env s).state.customerOutputAudio = true := by
  unfold start_transfer
  dsimp only
  split_ifs with h1 h2 h3 h4
  · intro hf; exact absurd hf hs
  · intro hf; exact absurd hf hs
  · intro hf
    rw [(start_hold_preserves env _).2.1] at hf
    simp at hf
    exact absurd hf hs
  · intro hf
    rw [(start_hold_preserves env _).2.1] at hf
    simp at hf
    exact absurd hf hs
  · exact transfer_try_failed_safe cfg env _ _ hin hout

/-- Helper: whenever the `try` block of `merge_calls` ends with
supervisor status `failed`, it went through `set_supervisor_failed`,
which re-enables caller audio (when those calls succeed) but leaves
`customer_status` exactly as it was. -/
theorem merge_try_failed_keeps (cfg : Config) (env : Env) (s : SMState)
    (hin : env (ExtCall.setInputAudio true) = false)
    (hout : env (ExtCall.setOutputAudio true) = false) :
    (merge_try cfg env s).state.supervisorStatus = SupervisorStatus.failed →
      (merge_try cfg env s).state.customerInputAudio = true ∧
      (merge_try cfg env s).state.customerOutputAudio = true ∧
      (merge_try cfg env s).state.customerStatus = s.customerStatus := by
  unfold merge_try merge_failure
  simp only [set_supervisor_failed_closed, stop_hold_closed]
  split_ifs <;> simp_all [audioInAfter, audioOutAfter]

/-- Helper: whenever `merge_calls` ends with supervisor status `failed`
(and did not start there), it went through `set_supervisor_failed`,
which re-enables caller audio (when those calls succeed) but leaves
`customer_status` exactly as it was. -/
theorem merge_calls_failed_keeps_customer_status (cfg : Config) (env : Env)
    (s : SMState)
    (hin : env (ExtCall.setInputAudio true) = false)
    (hout : env (ExtCall.setOutputAudio true) = false)
    (hs : s.supervisorStatus ≠ SupervisorStatus.failed) :
    (merge_calls cfg env s).state.supervisorStatus = SupervisorStatus.failed →
      (merge_calls cfg env s).state.customerInputAudio = true ∧
      (merge_calls cfg env s).state.customerOutputAudio = true ∧
      (merge_calls cfg env s).state.customerStatus = s.customerStatus := by
  unfold merge_calls
  dsimp only
  split_ifs with h1 h2
  · intro hf; exact absurd hf hs
  · rw [set_supervisor_failed_closed]
    intro _
    simp [audioInAfter, audioOutAfter, hin, hout]
  · exact merge_try_failed_keeps cfg env s hin hout

/-- C2 counterexample: a merge failure path on which the claim fails.
With `supervisor_status = "summarizing"`, `customer_status =
"escalated"` and the consult room missing, `merge_calls` takes its
precondition-failure path through `set_supervisor_failed` — a failure
path of a transfer attempt — yet `customer_status` stays `"escalated"`:
only `start_transfer`'s own exception handler ever resets it. -/
def summarizingNoRoomState : SMState :=
  { customerStatus := CustomerStatus.escalated,
    supervisorStatus := SupervisorStatus.summarizing,
    holdHandle := some 0, nextHandle := 1,
    customerInputAudio := false, customerOutputAudio := false,
    supervisorRoomExists := false, supervisorRoomName := none,
    supervisorSession := true, customerSessionClosed := false }

/-- C2 counterexample theorem: after that merge failure path the
supervisor status is `failed` but the customer status is not
`"active"`. -/
theorem C2_counterexample :
    (merge_calls cexCfg okEnv summarizingNoRoomState).state.supervisorStatus
      = SupervisorStatus.failed ∧
    (merge_calls cexCfg okEnv summarizingNoRoomState).state.customerStatus
      ≠ CustomerStatus.active := by decide

/-- C2 (amended): when the audio re-enable calls succeed, every failure
path restores both caller audio flags to true; but only failure paths
inside `start_transfer` reset `customer_status` to `"active"` — a
failure path of `merge_calls` (precondition or migration failure), a
voicemail signal, and `set_supervisor_failed` itself all leave
`customer_status` unchanged (in particular `"escalated"` stays
`"escalated"`). -/
theorem C2_failure_paths_audio_restored_status_partial (cfg : Config)
    (env : Env) (s : SMState)
    (hin : env (ExtCall.setInputAudio true) = false)
    (hout : env (ExtCall.setOutputAudio true) = false)
    (hs : s.supervisorStatus ≠ SupervisorStatus.failed) :
    ((start_transfer cfg env s).state.supervisorStatus = SupervisorStatus.failed →
      (start_transfer cfg env s).state.customerStatus = CustomerStatus.active ∧
      (start_transfer cfg env s).state.customerInputAudio = true ∧
      (start_transfer cfg env s).state.customerOutputAudio = true) ∧
    ((merge_calls cfg env s).state.supervisorStatus = SupervisorStatus.failed →
      (merge_calls cfg env s).state.customerInputAudio = true ∧
      (merge_calls cfg env s).state.customerOutputAudio = true ∧
      (merge_calls cfg env s).state.customerStatus = s.customerStatus) ∧
    ((voicemail_detected true env s).state.customerInputAudio = true ∧
     (voicemail_detected true env s).state.customerOutputAudio = true ∧
     (voicemail_detected true env s).state.customerStatus = s.customerStatus ∧
     (voicemail_detected true env s).state.supervisorStatus
       = SupervisorStatus.failed) := by
  refine ⟨start_transfer_failed_safe cfg env s hin hout hs,
          merge_calls_failed_keeps_customer_status cfg env s hin hout hs, ?_⟩
  unfold voicemail_detected
  simpa using set_supervisor_failed_safe env s hin hout

/-- C2 witness: the amended theorem applied at the concrete
summarizing-without-room state with the no-raise environment. -/
theorem C2_witness :
    ((start_transfer cexCfg okEnv summarizingNoRoomState).state.supervisorStatus
        = SupervisorStatus.failed →
      (start_transfer cexCfg okEnv summarizingNoRoomState).state.customerStatus
        = CustomerStatus.active ∧
      (start_transfer cexCfg okEnv summarizingNoRoomState).state.customerInputAudio
        = true ∧
      (start_transfer cexCfg okEnv summarizingNoRoomState).state.customerOutputAudio
        = true) ∧
    ((merge_calls cexCfg okEnv summarizingNoRoomState).state.supervisorStatus
        = SupervisorStatus.failed →
      (merge_calls cexCfg okEnv summarizingNoRoomState).state.customerInputAudio
        = true ∧
      (merge_calls cexCfg okEnv summarizingNoRoomState).state.customerOutputAudio
        = true ∧
      (merge_calls cexCfg okEnv summarizingNoRoomState).state.customerStatus
        = summarizingNoRoomState.customerStatus) ∧
    ((voicemail_detected true okEnv summarizingNoRoomState).state.customerInputAudio
        = true ∧
     (voicemail_detected true okEnv summarizingNoRoomState).state.customerOutputAudio
        = true ∧
     (voicemail_detected true okEnv summarizingNoRoomState).state.customerStatus
        = summarizingNoRoomState.customerStatus ∧
     (voicemail_detected true okEnv summarizingNoRoomState).state.supervisorStatus
        = SupervisorStatus.failed) :=
  C2_failure_paths_audio_restored_status_partial cexCfg okEnv
    summarizingNoRoomState rfl rfl (by decide)

/-- Concrete state with an active hold: handle 0 is playing and the
next fresh handle is 1. -/
def activeHoldState : SMState :=
  { customerStatus := CustomerStatus.escalated,
    supervisorStatus := SupervisorStatus.inactive,
    holdHandle := some 0, nextHandle := 1,
    customerInputAudio := false, customerOutputAudio := false,
    supervisorRoomExists := false, supervisorRoomName := none,
    supervisorSession := false, customerSessionClosed := false }

/-- C3 counterexample: with hold handle 0 active, a second `start_hold`
never invokes `stop()` on handle 0 (no stop call appears in its trace);
it merely overwrites the attribute with the fresh handle 1. The claim
that the previous handle's `stop()` is invoked is false. -/
theorem C3_counterexample :
    activeHoldState.holdHandle = some 0 ∧
    (start_hold okEnv activeHoldState).trace.count (ExtCall.stopHandle 0) = 0 ∧
    (start_hold okEnv activeHoldState).state.holdHandle = some 1 := by decide

/-- C3 (amended): a second `start_hold` while a hold is active invokes
no `stop()` at all (its trace contains no stop call, in particular none
for the active handle) and, when its external calls succeed, overwrites
the hold-handle attribute with the freshly created handle, leaving the
previous playback running and unreachable rather than stopped. -/
theorem C3_second_start_hold_never_stops (env : Env) (s : SMState) (h : Nat)
    (hh : s.holdHandle = some h) :
    (start_hold env s).trace.countP isStopCall = 0 ∧
    (start_hold env s).trace.count (ExtCall.stopHandle h) = 0 ∧
    ((start_hold env s).raised = false →
      (start_hold env s).state.holdHandle = some s.nextHandle) := by
  unfold start_hold
  split_ifs <;> simp [isStopCall]

/-- C3 witness: the amended theorem applied at the concrete
active-hold state. -/
theorem C3_witness :
    (start_hold okEnv activeHoldState).trace.countP isStopCall = 0 ∧
    (start_hold okEnv activeHoldState).trace.count (ExtCall.stopHandle 0) = 0 ∧
    ((start_hold okEnv activeHoldState).raised = false →
      (start_hold okEnv activeHoldState).state.holdHandle
        = some activeHoldState.nextHandle) :=
  C3_second_start_hold_never_stops okEnv activeHoldState 0 (by decide)

/-- Concrete state right after a successful merge: supervisor merged,
customer status still `"escalated"` (nothing resets it on success). -/
def mergedState : SMState :=
  { customerStatus := CustomerStatus.escalated,
    supervisorStatus := SupervisorStatus.merged,
    holdHandle := none, nextHandle := 1,
    customerInputAudio := true, customerOutputAudio := true,
    supervisorRoomExists := true, supervisorRoomName := some "room-1-consult",
    supervisorSession := false, customerSessionClosed := true }

/-- C4 counterexample: from `supervisor_status = "merged"`, the consult
room's disconnect notification (whose handler is registered at line 169
and runs `set_supervisor_failed`) moves the status to `"failed"` — the
assignment at line 211 is unconditional — so `"merged"` is not
terminal under the events the claim quantifies over. -/
theorem C4_counterexample :
    mergedState.supervisorStatus = SupervisorStatus.merged ∧
    (consult_disconnected okEnv mergedState).state.supervisorStatus
      ≠ SupervisorStatus.merged := by decide

/-- C4 (amended): `"merged"` is terminal for the two public operations:
from a merged state `merge_calls` is an exact no-op, and so is
`start_transfer` provided `customer_status` is not `"active"` (which
holds after a successful merge, since merging never resets it); but
`set_supervisor_failed` — reachable from the consult-room disconnect
notification and from the voicemail tool — still runs from `"merged"`
and unconditionally moves `supervisor_status` to `"failed"`. -/
theorem C4_merged_terminal_except_failure_handler (cfg : Config) (env : Env)
    (s : SMState) (h : s.supervisorStatus = SupervisorStatus.merged) :
    merge_calls cfg env s = { raised := false, state := s, trace := [] } ∧
    (s.customerStatus ≠ CustomerStatus.active →
      start_transfer cfg env s = { raised := false, state := s, trace := [] }) ∧
    (consult_disconnected env s).state.supervisorStatus
      = SupervisorStatus.failed ∧
    (voicemail_detected true env s).state.supervisorStatus
      = SupervisorStatus.failed := by
  refine ⟨?_, ?_, ?_, ?_⟩
  · unfold merge_calls
    simp [h]
  · intro hc
    unfold start_transfer
    simp [hc]
  · unfold consult_disconnected
    rw [set_supervisor_failed_closed]
  · unfold voicemail_detected
    simp only [if_pos]
    rw [set_supervisor_failed_closed]

/-- C4 witness: the amended theorem applied at the concrete merged
state. -/
theorem C4_witness :
    merge_calls cexCfg okEnv mergedState
      = { raised := false, state := mergedState, trace := [] } ∧
    (mergedState.customerStatus ≠ CustomerStatus.active →
      start_transfer cexCfg okEnv mergedState
        = { raised := false, state := mergedState, trace := [] }) ∧
    (consult_disconnected okEnv mergedState).state.supervisorStatus
      = SupervisorStatus.failed ∧
    (voicemail_detected true okEnv mergedState).state.supervisorStatus
      = SupervisorStatus.failed :=
  C4_merged_terminal_except_failure_handler cexCfg okEnv mergedState (by decide)

/-- Helper: appending the fixed consult suffix always yields a name
different from the caller room name. -/
theorem consult_name_ne (a : String) : a ++ "-consult" ≠ a := by
  intro h
  have h2 := congrArg String.length h
  rw [String.length_append] at h2
  have h3 : ("-consult" : String).length = 8 := rfl
  omega

/-- C5 (confirmed): from an active caller with trunk and contact
configured and no external call raising, `start_transfer` escalates the
customer, disables both caller audio directions and installs the fresh
hold handle, records the consult room under the deterministic name
`<caller room>-consult` (distinct from the caller room name), issues
the SIP dial with the fixed supervisor identity and
`wait_until_answered`, and ends with `supervisor_status =
"summarizing"`, raising nothing. -/
theorem C5_start_transfer_success (cfg : Config) (env : Env) (s : SMState)
    (hc : s.customerStatus = CustomerStatus.active)
    (ht : falsy cfg.sip_trunk_id = false)
    (hk : falsy cfg.supervisor_contact = false)
    (henv : ∀ c, env c = false) :
    (start_transfer cfg env s).raised = false ∧
    (start_transfer cfg env s).state.customerStatus = CustomerStatus.escalated ∧
    (start_transfer cfg env s).state.customerInputAudio = false ∧
    (start_transfer cfg env s).state.customerOutputAudio = false ∧
    (start_transfer cfg env s).state.holdHandle = some s.nextHandle ∧
    (start_transfer cfg env s).state.supervisorRoomName
      = some (cfg.customer_room_name ++ "-consult") ∧
    cfg.customer_room_name ++ "-consult" ≠ cfg.customer_room_name ∧
    ExtCall.createSipParticipant (cfg.sip_trunk_id.getD "")
        (cfg.supervisor_contact.getD "") (cfg.customer_room_name ++ "-consult")
        SUPERVISOR_IDENTITY true ∈ (start_transfer cfg env s).trace ∧
    (start_transfer cfg env s).state.supervisorStatus
      = SupervisorStatus.summarizing := by
  unfold start_transfer transfer_try start_hold
  simp [hc, ht, hk, henv, consult_name_ne]

/-- C5 witness: the theorem applied at the concrete configured state
with the no-raise environment. -/
theorem C5_witness :
    (start_transfer cexCfg okEnv cexState).raised = false ∧
    (start_transfer cexCfg okEnv cexState).state.customerStatus
      = CustomerStatus.escalated ∧
    (start_transfer cexCfg okEnv cexState).state.customerInputAudio = false ∧
    (start_transfer cexCfg okEnv cexState).state.customerOutputAudio = false ∧
    (start_transfer cexCfg okEnv cexState).state.holdHandle
      = some cexState.nextHandle ∧
    (start_transfer cexCfg okEnv cexState).state.supervisorRoomName
      = some (cexCfg.customer_room_name ++ "-consult") ∧
    cexCfg.customer_room_name ++ "-consult" ≠ cexCfg.customer_room_name ∧
    ExtCall.createSipParticipant (cexCfg.sip_trunk_id.getD "")
        (cexCfg.supervisor_contact.getD "")
        (cexCfg.customer_room_name ++ "-consult")
        SUPERVISOR_IDENTITY true ∈ (start_transfer cexCfg okEnv cexState).trace ∧
    (start_transfer cexCfg okEnv cexState).state.supervisorStatus
      = SupervisorStatus.summarizing :=
  C5_start_transfer_success cexCfg okEnv cexState rfl rfl rfl (fun _ => rfl)

/-- Concrete state mid-transfer: supervisor summarizing in a valid
consult room, hold active, supervisor agent session running. -/
def summarizingState : SMState :=
  { customerStatus := CustomerStatus.escalated,
    supervisorStatus := SupervisorStatus.summarizing,
    holdHandle := some 0, nextHandle := 1,
    customerInputAudio := false, customerOutputAudio := false,
    supervisorRoomExists := true, supervisorRoomName := some "room-1-consult",
    supervisorSession := true, customerSessionClosed := false }

/-- C6 (confirmed): with `supervisor_status = "summarizing"`, both
rooms valid (consult room present with a non-empty name, caller room
name non-empty), a live supervisor agent session and no external call
raising, `merge_calls` performs exactly one migration — moving the
fixed supervisor identity from the consult room to the caller room —
stops hold (handle cleared, both caller audio directions re-enabled),
closes the caller-side assistant leg and the consult-side
summarization leg, and ends with `supervisor_status = "merged"`. -/
theorem C6_merge_success (cfg : Config) (env : Env) (s : SMState) (n : String)
    (hs : s.supervisorStatus = SupervisorStatus.summarizing)
    (hre : s.supervisorRoomExists = true)
    (hn : s.supervisorRoomName = some n)
    (hne : n.isEmpty = false)
    (hcn : cfg.customer_room_name.isEmpty = false)
    (hsess : s.supervisorSession = true)
    (henv : ∀ c, env c = false) :
    (merge_calls cfg env s).raised = false ∧
    (merge_calls cfg env s).trace.filter isMoveCall
      = [ExtCall.moveParticipant n SUPERVISOR_IDENTITY cfg.customer_room_name] ∧
    (merge_calls cfg env s).state.holdHandle = none ∧
    (merge_calls cfg env s).state.customerInputAudio = true ∧
    (merge_calls cfg env s).state.customerOutputAudio = true ∧
    (merge_calls cfg env s).state.customerSessionClosed = true ∧
    ExtCall.closeCustomerSession ∈ (merge_calls cfg env s).trace ∧
    ExtCall.closeSupervisorSession ∈ (merge_calls cfg env s).trace ∧
    (merge_calls cfg env s).state.supervisorSession = false ∧
    (merge_calls cfg env s).state.supervisorStatus
      = SupervisorStatus.merged := by
  unfold merge_calls merge_try
  cases hh : s.holdHandle <;>
    simp [stop_hold_closed, hs, hre, hn, hne, hcn, hsess, henv, roomNameTruthy,
      stopHoldTrace, isMoveCall, audioInAfter, audioOutAfter, hh]

/-- C6 witness: the theorem applied at the concrete summarizing state
with the no-raise environment. -/
theorem C6_witness :
    (merge_calls cexCfg okEnv summarizingState).raised = false ∧
    (merge_calls cexCfg okEnv summarizingState).trace.filter isMoveCall
      = [ExtCall.moveParticipant "room-1-consult" SUPERVISOR_IDENTITY
          cexCfg.customer_room_name] ∧
    (merge_calls cexCfg okEnv summarizingState).state.holdHandle = none ∧
    (merge_calls cexCfg okEnv summarizingState).state.customerInputAudio = true ∧
    (merge_calls cexCfg okEnv summarizingState).state.customerOutputAudio = true ∧
    (merge_calls cexCfg okEnv summarizingState).state.customerSessionClosed
      = true ∧
    ExtCall.closeCustomerSession ∈ (merge_calls cexCfg okEnv summarizingState).trace ∧
    ExtCall.closeSupervisorSession
      ∈ (merge_calls cexCfg okEnv summarizingState).trace ∧
    (merge_calls cexCfg okEnv summarizingState).state.supervisorSession = false ∧
    (merge_calls cexCfg okEnv summarizingState).state.supervisorStatus
      = SupervisorStatus.merged :=
  C6_merge_success cexCfg okEnv summarizingState "room-1-consult"
    rfl rfl rfl rfl rfl rfl (fun _ => rfl)

/-- Helper: when none of its three external calls raises, `start_hold`
succeeds, disabling both audio directions and installing the fresh
handle. -/
theorem start_hold_ok (env : Env) (s : SMState)
    (h1 : env (ExtCall.setInputAudio false) = false)
    (h2 : env (ExtCall.setOutputAudio false) = false)
    (h3 : env ExtCall.playHold = false) :
    start_hold env s =
      { raised := false,
        state := { s with customerInputAudio := false,
                          customerOutputAudio := false,
                          holdHandle := some s.nextHandle,
                          nextHandle := s.nextHandle + 1 },
        trace := [ExtCall.setInputAudio false, ExtCall.setOutputAudio false,
                  ExtCall.playHold] } := by
  unfold start_hold
  simp [h1, h2, h3]

/-- Helper: `merge_calls` never lets an exception propagate: every
external call it makes is inside its `try` (or inside
`set_supervisor_failed`, whose calls are each wrapped), and the
exception handler only runs `set_supervisor_failed`, which never
raises. -/
theorem merge_calls_never_raises (cfg : Config) (env : Env) (s : SMState) :
    (merge_calls cfg env s).raised = false := by
  unfold merge_calls merge_try merge_failure
  simp only [set_supervisor_failed_closed, stop_hold_closed]
  split_ifs <;> simp

/-- Environment in which exactly the hold announcement raises. -/
def holdSayRaisesEnv : Env :=
  fun c => decide (c = ExtCall.sayCustomer pleaseHoldMsg)

/-- C7 counterexample: from an active, fully configured state, when the
hold announcement `say` (line 145, outside the `try` block) raises,
the exception propagates out of `start_transfer` to its caller,
refuting the claim that no exception propagates out of
`start_transfer`. -/
theorem C7_counterexample :
    (start_transfer cexCfg holdSayRaisesEnv cexState).raised = true := by decide

/-- C7 (amended): every exception raised by an external call inside the
`try` blocks of `start_transfer` (consult-room connect, supervisor
session creation and start, SIP dial) and of `merge_calls` (the whole
merge sequence) is caught at the operation boundary and converted into
`set_supervisor_failed`, and `merge_calls` never propagates any
exception; but `start_transfer` propagates exceptions raised before
its `try` block — by the unavailable-notice `say`, by `start_hold`'s
audio-disable or playback calls, or by the hold announcement. -/
theorem C7_try_blocks_never_propagate (cfg : Config) (env : Env) (s : SMState)
    (h1 : env (ExtCall.setInputAudio false) = false)
    (h2 : env (ExtCall.setOutputAudio false) = false)
    (h3 : env ExtCall.playHold = false)
    (h4 : env (ExtCall.sayCustomer pleaseHoldMsg) = false)
    (h5 : env (ExtCall.sayCustomer transferUnavailableMsg) = false) :
    (start_transfer cfg env s).raised = false ∧
    (merge_calls cfg env s).raised = false := by
  refine ⟨?_, merge_calls_never_raises cfg env s⟩
  unfold start_transfer transfer_try transfer_failure
  simp only [set_supervisor_failed_closed,
    start_hold_ok env _ h1 h2 h3, h4, h5]
  split_ifs <;> simp_all

/-- C7 witness: the amended theorem applied at the concrete configured
state with the no-raise environment. -/
theorem C7_witness :
    (start_transfer cexCfg okEnv cexState).raised = false ∧
    (merge_calls cexCfg okEnv cexState).raised = false :=
  C7_try_blocks_never_propagate cexCfg okEnv cexState rfl rfl rfl rfl rfl

/-- C8 (confirmed): whenever the trunk id or the supervisor contact is
unset (None or empty), `start_transfer` leaves the state exactly as it
was and its only external call, if any, is the single spoken
unavailable notice (none at all when the customer is not active, since
that check comes first). -/
theorem C8_unset_config_no_side_effects (cfg : Config) (env : Env) (s : SMState)
    (h : falsy cfg.sip_trunk_id = true ∨ falsy cfg.supervisor_contact = true) :
    (start_transfer cfg env s).state = s ∧
    ((start_transfer cfg env s).trace = [] ∨
     (start_transfer cfg env s).trace
       = [ExtCall.sayCustomer transferUnavailableMsg]) := by
  unfold start_transfer
  by_cases hc : s.customerStatus ≠ CustomerStatus.active
  · simp [hc]
  · have hor : (falsy cfg.sip_trunk_id || falsy cfg.supervisor_contact) = true := by
      rcases h with h | h <;> simp [h]
    simp [hc, hor]

/-- Concrete configuration with the trunk id unset. -/
def unsetCfg : Config :=
  { sip_trunk_id := none, supervisor_contact := some "+1000",
    customer_room_name := "room-1" }

/-- C8 witness: the theorem applied at the concrete unset-trunk
configuration and an active caller. -/
theorem C8_witness :
    (start_transfer unsetCfg okEnv cexState).state = cexState ∧
    ((start_transfer unsetCfg okEnv cexState).trace = [] ∨
     (start_transfer unsetCfg okEnv cexState).trace
       = [ExtCall.sayCustomer transferUnavailableMsg]) :=
  C8_unset_config_no_side_effects unsetCfg okEnv cexState (Or.inl rfl)

/-- C9 (confirmed): the filtered copy the briefing is built from keeps
exactly the non-empty caller/assistant message turns of the prior
history, in their original order, and the briefing string is the
in-order rendering of exactly those turns — an empty turn and a
function-call turn are both excluded by the copy filter. -/
theorem C9_briefing_exact_turns (items : List ChatItem) :
    contextCopy items = items.filter specKeeps ∧
    prev_convo items
      = String.join ((items.filter specKeeps).map briefingLine) := by
  have hfe : ∀ it : ChatItem, copyKeeps it = specKeeps it := by
    intro it
    cases it with
    | message r t => cases r <;> simp [copyKeeps, specKeeps]
    | functionCall n => rfl
  have hcf : contextCopy items = items.filter specKeeps := by
    unfold contextCopy
    exact List.filter_congr (fun it _ => hfe it)
  refine ⟨hcf, ?_⟩
  unfold prev_convo String.join
  rw [hcf, List.foldl_map]

/-- C10 (confirmed): `stop_hold` never raises, always leaves the hold
handle cleared, always attempts the input-audio re-enable, attempts the
output-audio re-enable exactly when the input one did not raise, sets
each flag true unless its own re-enable call raised (in which case the
flag keeps its old value and the error is swallowed), and running
`stop_hold` again from the resulting state leaves that state unchanged,
so any number of consecutive calls is equivalent to one. -/
theorem C10_stop_hold_safe_idempotent (env : Env) (s : SMState) :
    (stop_hold env s).raised = false ∧
    (stop_hold env s).state.holdHandle = none ∧
    ExtCall.setInputAudio true ∈ (stop_hold env s).trace ∧
    (ExtCall.setOutputAudio true ∈ (stop_hold env s).trace
      ↔ env (ExtCall.setInputAudio true) = false) ∧
    (stop_hold env s).state.customerInputAudio
      = (if env (ExtCall.setInputAudio true) = true
         then s.customerInputAudio else true) ∧
    (stop_hold env s).state.customerOutputAudio
      = (if env (ExtCall.setInputAudio true) = true
         then s.customerOutputAudio
         else if env (ExtCall.setOutputAudio true) = true
              then s.customerOutputAudio else true) ∧
    (stop_hold env (stop_hold env s).state).state = (stop_hold env s).state := by
  obtain ⟨cs, ss, hh, nh, cia, coa, sre, srn, sse, csc⟩ := s
  simp only [stop_hold_closed]
  cases hh <;>
    by_cases h1 : env (ExtCall.setInputAudio true) <;>
      by_cases h2 : env (ExtCall.setOutputAudio true) <;>
        simp [stopHoldTrace, audioInAfter, audioOutAfter, h1, h2]

/-- C10 witness: the theorem applied at the concrete active-hold state
with the no-raise environment. -/
theorem C10_witness :
    (stop_hold okEnv activeHoldState).raised = false ∧
    (stop_hold okEnv activeHoldState).state.holdHandle = none ∧
    ExtCall.setInputAudio true ∈ (stop_hold okEnv activeHoldState).trace ∧
    (ExtCall.setOutputAudio true ∈ (stop_hold okEnv activeHoldState).trace
      ↔ okEnv (ExtCall.setInputAudio true) = false) ∧
    (stop_hold okEnv activeHoldState).state.customerInputAudio
      = (if okEnv (ExtCall.setInputAudio true) = true
         then activeHoldState.customerInputAudio else true) ∧
    (stop_hold okEnv activeHoldState).state.customerOutputAudio
      = (if okEnv (ExtCall.setInputAudio true) = true
         then activeHoldState.customerOutputAudio
         else if okEnv (ExtCall.setOutputAudio true) = true
              then activeHoldState.customerOutputAudio else true) ∧
    (stop_hold okEnv (stop_hold okEnv activeHoldState).state).state
      = (stop_hold okEnv activeHoldState).state :=
  C10_stop_hold_safe_idempotent okEnv activeHoldState
